import Mathlib

/-!
Verification of the SmartDoc AI admin dashboard (`app.py`, `app_utils.py`).

The dashboard is a Streamlit script: all data operations are pure
transformations of the collections fetched from the backend together with
explicit session state.  We embed those transformations as Lean functions,
translated directly from the Python source:

* `total_pages`, `page_slice`, `doc_page_render`, `user_page_render`
  embed the pagination blocks of the Documents and Users pages;
* `filter_documents` embeds the Documents-page filter block;
* `py_sorted_by` embeds the Python stable `sorted(..., key=..., reverse=...)`
  as used by the two sort call sites;
* `is_summarized`, `summarized_count` embed the dashboard aggregation;
* `fetch_documents`, `fetch_users`, `verify_admin_access` embed the HTTP
  handlers, with the possible outcomes of a `requests` call reified as the
  inductive `FetchResponse`;
* `wait_for_backend` embeds the readiness-probe loop over a trace of
  probe outcomes;
* `delete_document_handler`, `confirm_delete_user_handler` embed the two
  delete handlers as explicit session-state transformers;
* `user_step` / `user_run` embed the Users-page detail view as a
  transition system recording which DELETE requests are emitted.
-/

namespace SmartDoc

/-- Document record as returned by `GET /admin/documents` (fields used by
the dashboard; `summary` is optional since the backend may send null). -/
structure Doc where
  id : String
  filename : String
  file_type : String
  upload_time : String
  user_id : String
  is_vectorized : Bool
  path : String
  summary : Option String
deriving DecidableEq, Repr

/-- User record as returned by `GET /admin/users`. -/
structure User where
  id : String
  username : String
  email : String
  is_admin : Bool
  is_active : Bool
  created_at : String
deriving DecidableEq, Repr

/-! ### Pagination (app.py lines 483-504 and 556-574) -/

/-- Total page count, from
`max(1, len(filtered_docs) // PAGE_SIZE + (1 if len(filtered_docs) % PAGE_SIZE > 0 else 0))`
with `PAGE_SIZE = 8`. -/
def total_pages (n : Nat) : Nat :=
  max 1 (n / 8 + (if n % 8 > 0 then 1 else 0))

/-- Python slice `items[start_idx:end_idx]` with
`start_idx = (page - 1) * 8` and `end_idx = min(page * 8, len(items))`. -/
def page_slice (l : List α) (page : Nat) : List α :=
  let start_idx := (page - 1) * 8
  let end_idx := min (page * 8) l.length
  (l.drop start_idx).take (end_idx - start_idx)

/-- Documents-page pagination block: computes `total_pages`, resets the
stored page to 1 when it exceeds `total_pages`, then slices.  Returns
(rendered page number, total pages, rendered slice). -/
def doc_page_render (filtered : List Doc) (stored_page : Nat) :
    Nat × Nat × List Doc :=
  let tp := total_pages filtered.length
  let page := if stored_page > tp then 1 else stored_page
  (page, tp, page_slice filtered page)

/-- Users-page pagination block: computes `total_pages` and slices at the
stored page.  The source performs no clamping here. -/
def user_page_render (users : List User) (stored_page : Nat) :
    Nat × Nat × List User :=
  let tp := total_pages users.length
  (stored_page, tp, page_slice users stored_page)

/-! ### Filtering (app.py lines 467-474) -/

/-- Prefix test on character lists, the first step of the Python substring
containment test. -/
def is_pref : List Char → List Char → Bool
  | [], _ => true
  | _ :: _, [] => false
  | n :: ns, h :: hs => n == h && is_pref ns hs

/-- Substring containment on character lists: the Python `needle in hay`
for strings. -/
def has_sub : List Char → List Char → Bool
  | needle, [] => is_pref needle []
  | needle, h :: hs => is_pref needle (h :: hs) || has_sub needle hs

/-- The Python `needle in hay` operator on strings. -/
def py_in (needle hay : String) : Bool :=
  has_sub needle.toList hay.toList

/-- Documents-page filter block: when the search query is non-empty keep
documents whose lowercased filename contains the lowercased query; when
the user filter is non-empty keep documents whose `user_id` equals it. -/
def filter_documents (docs : List Doc) (search_query user_filter : String) :
    List Doc :=
  let d1 :=
    if search_query ≠ "" then
      docs.filter (fun d => py_in search_query.toLower d.filename.toLower)
    else docs
  if user_filter ≠ "" then d1.filter (fun d => user_filter == d.user_id)
  else d1

/-! ### Sorting (app.py lines 476-478 and 549-554) -/

/-- Lexicographic comparison of character lists by code point: the Python
string `<=`. -/
def chars_le : List Char → List Char → Bool
  | [], _ => true
  | _ :: _, [] => false
  | a :: as, b :: bs =>
    if a.toNat < b.toNat then true
    else if b.toNat < a.toNat then false
    else chars_le as bs

/-- Python string comparison `a <= b`. -/
def py_str_le (a b : String) : Bool :=
  chars_le a.toList b.toList

/-- The Python stable `sorted(l, key=key, reverse=reverse)` for string keys.
CPython implements `reverse=True` by reversing, sorting stably ascending,
and reversing again, which is exactly a stable sort by descending key
with ties kept in input order; both directions are therefore stable
insertion sorts on the corresponding non-strict key order. -/
def py_sorted_by (key : α → String) (reverse : Bool) (l : List α) : List α :=
  if reverse then
    l.insertionSort (fun a b => py_str_le (key b) (key a) = true)
  else
    l.insertionSort (fun a b => py_str_le (key a) (key b) = true)

/-- Documents-page sort:
`sorted(filtered_docs, key=lambda x: x["upload_time"], reverse=(sort_order_docs == "desc"))`. -/
def sort_documents (sort_order_docs : String) (docs : List Doc) : List Doc :=
  py_sorted_by (fun x => x.upload_time) (sort_order_docs == "desc") docs

/-- Users-page sort:
`sorted(users, key=lambda x: x["created_at"], reverse=(sort_order_users == "desc"))`. -/
def sort_users (sort_order_users : String) (users : List User) : List User :=
  py_sorted_by (fun x => x.created_at) (sort_order_users == "desc") users

/-! ### Dashboard aggregation (app.py lines 283-285 and 407-411) -/

/-- Summarization test:
`doc.get("summary") and doc.get("summary") not in ["None", "null", ""]`.
A missing or empty summary is falsy in Python, so the first conjunct is
`summary` present and non-empty. -/
def is_summarized (d : Doc) : Bool :=
  match d.summary with
  | none => false
  | some s => (s != "") && !(s == "None" || s == "null" || s == "")

/-- Count of summarized documents (`summarized_count` in app.py). -/
def summarized_count (docs : List Doc) : Nat :=
  docs.countP (fun d => is_summarized d)

/-- Count of non-summarized documents:
`len(all_documents) - summarized_count`. -/
def not_summarized_count (docs : List Doc) : Nat :=
  docs.length - summarized_count docs

/-! ### HTTP fetch handlers (app.py lines 183-219, app_utils.py lines 41-72) -/

/-- Outcome of one `requests` call, as observed by the caller: a
connection error, some other raised exception (with its message), or an
HTTP response carrying a status code, the decoded payload (meaningful on
200) and the decoded error `detail` field. -/
inductive FetchResponse (α : Type) where
  | conn_error : FetchResponse α
  | exc (msg : String) : FetchResponse α
  | http (status : Nat) (payload : α) (detail : String) : FetchResponse α
deriving DecidableEq, Repr

/-- Return value of `fetch_documents`: the decoded payload on a 200
response, the empty list in every other case (missing token, non-200
response, connection error, any other exception). -/
def fetch_documents (token : Option String) (r : FetchResponse (List Doc)) :
    List Doc :=
  match token with
  | none => []
  | some _ =>
    match r with
    | .http status payload _ => if status = 200 then payload else []
    | .conn_error => []
    | .exc _ => []

/-- Error message displayed by `fetch_documents` via `st.error`, `none`
when no error is shown. -/
def fetch_documents_msg (token : Option String)
    (r : FetchResponse (List Doc)) : Option String :=
  match token with
  | none => none
  | some _ =>
    match r with
    | .http status _ detail =>
      if status = 200 then none
      else some ("Failed to fetch documents: " ++ toString status ++ " - " ++ detail)
    | .conn_error =>
      some "Network error: Could not connect to backend to fetch documents."
    | .exc e => some ("Error fetching documents: " ++ e)

/-- Return value of `fetch_users`, same shape as `fetch_documents`. -/
def fetch_users (token : Option String) (r : FetchResponse (List User)) :
    List User :=
  match token with
  | none => []
  | some _ =>
    match r with
    | .http status payload _ => if status = 200 then payload else []
    | .conn_error => []
    | .exc _ => []

/-- Error message displayed by `fetch_users`. -/
def fetch_users_msg (token : Option String)
    (r : FetchResponse (List User)) : Option String :=
  match token with
  | none => none
  | some _ =>
    match r with
    | .http status _ detail =>
      if status = 200 then none
      else some ("Failed to fetch users: " ++ toString status ++ " - " ++ detail)
    | .conn_error =>
      some "Network error: Could not connect to backend to fetch users."
    | .exc e => some ("Error fetching users: " ++ e)

/-- Authentication-related session state touched by the handlers. -/
structure SessionSt where
  access_token : Option String
  is_admin : Bool
deriving DecidableEq, Repr

/-- Embeds `verify_admin_access`: reads the token, issues
`GET /admin/users`, and updates `st.session_state` according to the
outcome; only the 401 branch clears the stored token.  Returns the new
session state and the boolean result. -/
def verify_admin_access (s : SessionSt) (r : FetchResponse Unit) :
    SessionSt × Bool :=
  match s.access_token with
  | none => ({ s with is_admin := false }, false)
  | some _ =>
    match r with
    | .http status _ _ =>
      if status = 200 then ({ s with is_admin := true }, true)
      else if status = 403 then ({ s with is_admin := false }, false)
      else if status = 401 then
        ({ access_token := none, is_admin := false }, false)
      else ({ s with is_admin := false }, false)
    | .conn_error => ({ s with is_admin := false }, false)
    | .exc _ => ({ s with is_admin := false }, false)

/-- State-passing form of `fetch_documents`: the source function reads
`st.session_state` only through its `token` argument and assigns no
session field, so the session state is returned unchanged. -/
def fetch_documents_st (s : SessionSt) (r : FetchResponse (List Doc)) :
    SessionSt × List Doc :=
  (s, fetch_documents s.access_token r)

/-- State-passing form of `fetch_users`; the source likewise assigns no
session field. -/
def fetch_users_st (s : SessionSt) (r : FetchResponse (List User)) :
    SessionSt × List User :=
  (s, fetch_users s.access_token r)

/-! ### Readiness probe (app_utils.py lines 10-33) -/

/-- Outcome of one probe attempt inside `wait_for_backend`: an HTTP
response with some status, or one of the three caught exception kinds. -/
inductive ProbeOutcome where
  | resp (status : Nat) : ProbeOutcome
  | conn_error : ProbeOutcome
  | timeout_error : ProbeOutcome
  | other_error : ProbeOutcome
deriving DecidableEq, Repr

/-- Embeds the `wait_for_backend` loop over the finite trace of probe
attempts the wall clock allows before the overall timeout: return `true`
on the first attempt whose response status is 200; swallow every
exception and keep going; return `false` when the attempts are
exhausted. -/
def wait_for_backend : List ProbeOutcome → Bool
  | [] => false
  | o :: rest =>
    match o with
    | .resp status => if status = 200 then true else wait_for_backend rest
    | .conn_error => wait_for_backend rest
    | .timeout_error => wait_for_backend rest
    | .other_error => wait_for_backend rest

/-! ### Delete handlers (app.py lines 516-532 and 646-664) -/

/-- Session state read or written by the two delete handlers.  The two
`@st.cache_data` caches are modelled as `Option` values, `none` meaning
invalidated (`fetch_documents.clear()` / `fetch_users.clear()`);
`delete_flag` is `st.session_state[delete_state_key]` for the selected
user. -/
structure AppState where
  doc_cache : Option (List Doc)
  user_cache : Option (List User)
  unique_user_ids : Option (List String)
  sorted_users : Option (List User)
  doc_page : Nat
  user_page : Nat
  delete_flag : Bool
deriving DecidableEq, Repr

/-- Outcome of a DELETE request: an HTTP response or a raised exception. -/
inductive DeleteResult where
  | http (status : Nat) (detail : String) : DeleteResult
  | exc (msg : String) : DeleteResult
deriving DecidableEq, Repr

/-- Embeds the Documents-page delete handler: on a 200 response clear the
document cache, drop `unique_user_ids` and reset `doc_page` to 1; on any
other response or exception only display an error. -/
def delete_document_handler (s : AppState) (r : DeleteResult) : AppState :=
  match r with
  | .http status _ =>
    if status = 200 then
      { s with doc_cache := none, unique_user_ids := none, doc_page := 1 }
    else s
  | .exc _ => s

/-- Embeds the Users-page confirm-delete handler: on a 200 response clear
both caches, drop `unique_user_ids` and `sorted_users`, disarm the
confirmation flag and reset `user_page` to 1; on any other response or
exception only display an error. -/
def confirm_delete_user_handler (s : AppState) (r : DeleteResult) : AppState :=
  match r with
  | .http status _ =>
    if status = 200 then
      { s with doc_cache := none, user_cache := none,
               unique_user_ids := none, sorted_users := none,
               delete_flag := false, user_page := 1 }
    else s
  | .exc _ => s

/-! ### Users-page delete interaction (app.py lines 609-667) -/

/-- One button press in the Users-page detail view, for the user selected
by username in the detail select box. -/
inductive UserAction where
  | press_delete (username : String) : UserAction
  | press_confirm (username : String) (r : DeleteResult) : UserAction
  | press_cancel (username : String) : UserAction
deriving DecidableEq, Repr

/-- One step of the Users-page detail view.  The armed confirmation flags
(`delete_state_{id}`) are modelled as the list of armed user ids.  The
selected user is looked up by username exactly as the source does; the
Danger-Zone buttons exist only under `if not is_admin:`, and the confirm
button only when the flag is armed, so a press outside those conditions
is a no-op.  Returns the new flag list and the id targeted by an emitted
`DELETE /admin/users/{id}` request, if any. -/
def user_step (users : List User) (flags : List String) (a : UserAction) :
    List String × Option String :=
  match a with
  | .press_delete name =>
    match users.find? (fun u => u.username == name) with
    | none => (flags, none)
    | some u =>
      if u.is_admin then (flags, none)
      else (u.id :: flags, none)
  | .press_confirm name r =>
    match users.find? (fun u => u.username == name) with
    | none => (flags, none)
    | some u =>
      if u.is_admin then (flags, none)
      else if flags.contains u.id then
        match r with
        | .http status _ =>
          if status = 200 then (flags.erase u.id, some u.id)
          else (flags, some u.id)
        | .exc _ => (flags, some u.id)
      else (flags, none)
  | .press_cancel name =>
    match users.find? (fun u => u.username == name) with
    | none => (flags, none)
    | some u =>
      if u.is_admin then (flags, none)
      else if flags.contains u.id then (flags.erase u.id, none)
      else (flags, none)

/-- Runs a sequence of Users-page actions, collecting the ids targeted by
all emitted DELETE requests. -/
def user_run (users : List User) (flags : List String) :
    List UserAction → List String
  | [] => []
  | a :: rest =>
    match user_step users flags a with
    | (flags2, none) => user_run users flags2 rest
    | (flags2, some i) => i :: user_run users flags2 rest

/-! ### Sample data used by concrete scenarios -/

/-- Sample document with a given index baked into its id and upload time. -/
def sample_doc (i : Nat) : Doc :=
  { id := toString i, filename := "file" ++ toString i ++ ".txt",
    file_type := "txt", upload_time := "2024-01-01T00:00:" ++ toString i,
    user_id := "1", is_vectorized := false, path := "/tmp/f",
    summary := none }

/-- List of `n` sample documents. -/
def sample_docs (n : Nat) : List Doc :=
  (List.range n).map sample_doc

/-- Sample non-admin user. -/
def sample_user : User :=
  { id := "1", username := "alice", email := "alice@example.com",
    is_admin := false, is_active := true,
    created_at := "2024-01-01T00:00:00" }

/-- Sample document whose summary is the literal string "null". -/
def null_summary_doc : Doc :=
  { id := "d1", filename := "a.txt", file_type := "txt",
    upload_time := "2024-01-01T00:00:00", user_id := "1",
    is_vectorized := false, path := "/tmp/a.txt", summary := some "null" }

/-- Total page count is at least one. -/
theorem one_le_total_pages (n : Nat) : 1 ≤ total_pages n :=
  le_max_left 1 _

/-- C4: pagination computes `totalPages = max(1, ceil(n / 8))`, the visible
page `p` is exactly the slice `[(p-1)*8, p*8)` of the collection, and for
17 documents `totalPages = 3` with exactly 1 item on page 3. -/
theorem c4_pagination (l : List Doc) (p : Nat) (hp : 1 ≤ p) :
    total_pages l.length = max 1 ((l.length + 7) / 8) ∧
    page_slice l p = (l.drop ((p - 1) * 8)).take 8 ∧
    total_pages (sample_docs 17).length = 3 ∧
    (page_slice (sample_docs 17) 3).length = 1 := by
  refine ⟨?_, ?_, ?_, ?_⟩
  · unfold total_pages
    by_cases h : l.length % 8 > 0 <;> simp [h] <;> omega
  · simp only [page_slice]
    by_cases h : p * 8 ≤ l.length
    · rw [min_eq_left h]
      have h8 : p * 8 - (p - 1) * 8 = 8 := by omega
      rw [h8]
    · push_neg at h
      rw [min_eq_right (le_of_lt h)]
      rw [List.take_of_length_le, List.take_of_length_le]
      · rw [List.length_drop]; omega
      · rw [List.length_drop]
  · have hlen : (sample_docs 17).length = 17 := by simp [sample_docs]
    rw [hlen]; decide
  · have hlen : (sample_docs 17).length = 17 := by simp [sample_docs]
    simp only [page_slice, List.length_take, List.length_drop, hlen]
    norm_num
/-- Witness for `c4_pagination` at the 17-document scenario with page 3. -/
theorem c4_pagination_witness :
    1 ≤ 3 ∧
    (total_pages (sample_docs 17).length =
        max 1 (((sample_docs 17).length + 7) / 8) ∧
      page_slice (sample_docs 17) 3 =
        ((sample_docs 17).drop ((3 - 1) * 8)).take 8 ∧
      total_pages (sample_docs 17).length = 3 ∧
      (page_slice (sample_docs 17) 3).length = 1) :=
  ⟨by decide, c4_pagination (sample_docs 17) 3 (by decide)⟩

/-- C1 counterexample: on the Users page the stored page is not clamped:
with one user and stored page 2, the rendered page number 2 exceeds
`totalPages = 1` and the rendered slice is empty. -/
theorem c1_counterexample :
    (user_page_render [sample_user] 2).2.1 = 1 ∧
    (user_page_render [sample_user] 2).1 = 2 ∧
    ¬((user_page_render [sample_user] 2).1 ≤
        (user_page_render [sample_user] 2).2.1) ∧
    (user_page_render [sample_user] 2).2.2 = [] := by
  decide

/-- C1 amended: the Documents page clamps an out-of-range stored page to 1
before slicing, so its rendered page number lies in `[1, totalPages]`;
the Users page renders the stored page number unchanged (no clamping). -/
theorem c1_doc_page_clamped (l : List Doc) (p : Nat) (hp : 1 ≤ p) :
    1 ≤ (doc_page_render l p).1 ∧
    (doc_page_render l p).1 ≤ (doc_page_render l p).2.1 ∧
    (p > total_pages l.length → (doc_page_render l p).1 = 1) ∧
    (∀ (us : List User) (q : Nat), (user_page_render us q).1 = q) := by
  have hres : (doc_page_render l p).1 =
      if p > total_pages l.length then 1 else p := rfl
  have htp : (doc_page_render l p).2.1 = total_pages l.length := rfl
  have h1 := one_le_total_pages l.length
  refine ⟨?_, ?_, ?_, fun us q => rfl⟩
  · rw [hres]; split_ifs with h
    · exact le_refl 1
    · exact hp
  · rw [hres, htp]; split_ifs with h
    · exact h1
    · omega
  · intro hc; rw [hres, if_pos hc]
/-- Witness for `c1_doc_page_clamped` with the empty collection and stored
page 5. -/
theorem c1_doc_page_clamped_witness :
    1 ≤ 5 ∧
    (1 ≤ (doc_page_render [] 5).1 ∧
      (doc_page_render [] 5).1 ≤ (doc_page_render [] 5).2.1 ∧
      (5 > total_pages ([] : List Doc).length → (doc_page_render [] 5).1 = 1) ∧
      (∀ (us : List User) (q : Nat), (user_page_render us q).1 = q)) :=
  ⟨by decide, c1_doc_page_clamped [] 5 (by decide)⟩

/-- C2 counterexample: a 401 response to the documents fetch leaves the
stored access token in place, contradicting the claim that every
authenticated call clears the token on 401. -/
theorem c2_counterexample :
    (fetch_documents_st { access_token := some "tok", is_admin := true }
        (FetchResponse.http 401 [] "Not authenticated")).1.access_token =
      some "tok" ∧
    (fetch_documents_st { access_token := some "tok", is_admin := true }
        (FetchResponse.http 401 [] "Not authenticated")).1.access_token ≠
      none := by
  exact ⟨rfl, by simp [fetch_documents_st]⟩

/-- C2 amended: only the admin-verification call clears the stored token
on a 401 response; the documents and users fetches leave the session
state (including the token) unchanged on every outcome. -/
theorem c2_amended (s : SessionSt) (t detail : String)
    (h : s.access_token = some t) :
    (verify_admin_access s (FetchResponse.http 401 () detail)).1.access_token =
      none ∧
    (∀ r : FetchResponse (List Doc), (fetch_documents_st s r).1 = s) ∧
    (∀ r : FetchResponse (List User), (fetch_users_st s r).1 = s) := by
  refine ⟨?_, fun r => rfl, fun r => rfl⟩
  unfold verify_admin_access
  rw [h]
  simp
/-- Witness for `c2_amended` at a concrete session holding a token. -/
theorem c2_amended_witness :
    ({ access_token := some "tok", is_admin := true } : SessionSt).access_token =
      some "tok" ∧
    ((verify_admin_access { access_token := some "tok", is_admin := true }
        (FetchResponse.http 401 () "expired")).1.access_token = none ∧
      (∀ r : FetchResponse (List Doc),
        (fetch_documents_st { access_token := some "tok", is_admin := true } r).1 =
          { access_token := some "tok", is_admin := true }) ∧
      (∀ r : FetchResponse (List User),
        (fetch_users_st { access_token := some "tok", is_admin := true } r).1 =
          { access_token := some "tok", is_admin := true })) :=
  ⟨rfl, c2_amended _ "tok" "expired" rfl⟩

/-- C3 counterexample: the documents fetch returns the same value `[]` for
a transport failure as for a successful fetch of an empty collection, so
a failure result is not distinguishable from an empty success by the
return value. -/
theorem c3_counterexample :
    fetch_documents (some "tok") FetchResponse.conn_error =
      fetch_documents (some "tok") (FetchResponse.http 200 [] "") ∧
    fetch_documents (some "tok") FetchResponse.conn_error = [] :=
  ⟨rfl, rfl⟩

/-- C3 amended: the list operations handle the three outcomes (transport
failure, non-2xx with decoded detail, success) without throwing uncaught,
reporting the two failure outcomes through displayed error messages and
none on success; their return value, however, is the empty list on every
failure, the same as a successful empty fetch. -/
theorem c3_amended (t : String) (r : FetchResponse (List Doc))
    (ru : FetchResponse (List User)) :
    (fetch_documents_msg (some t) r = none ↔
      ∃ p d, r = FetchResponse.http 200 p d) ∧
    (∀ p d, r = FetchResponse.http 200 p d →
      fetch_documents (some t) r = p) ∧
    (fetch_documents_msg (some t) r ≠ none →
      fetch_documents (some t) r = []) ∧
    (∀ s p d, r = FetchResponse.http s p d → s ≠ 200 →
      fetch_documents_msg (some t) r =
        some ("Failed to fetch documents: " ++ toString s ++ " - " ++ d)) ∧
    (r = FetchResponse.conn_error →
      fetch_documents_msg (some t) r =
        some "Network error: Could not connect to backend to fetch documents.") ∧
    (∀ e, r = FetchResponse.exc e →
      fetch_documents_msg (some t) r =
        some ("Error fetching documents: " ++ e)) ∧
    (fetch_users_msg (some t) ru = none ↔
      ∃ p d, ru = FetchResponse.http 200 p d) ∧
    (∀ p d, ru = FetchResponse.http 200 p d → fetch_users (some t) ru = p) ∧
    (fetch_users_msg (some t) ru ≠ none → fetch_users (some t) ru = []) := by
  refine ⟨?_, ?_, ?_, ?_, ?_, ?_, ?_, ?_, ?_⟩
  · cases r with
    | conn_error => simp [fetch_documents_msg]
    | exc e => simp [fetch_documents_msg]
    | http status p d =>
      by_cases h : status = 200 <;> simp [fetch_documents_msg, h]
  · rintro p d rfl
    simp [fetch_documents]
  · cases r with
    | conn_error => intro _; rfl
    | exc e => intro _; rfl
    | http status p d =>
      by_cases h : status = 200 <;>
        simp [fetch_documents_msg, fetch_documents, h]
  · rintro s p d rfl hs
    simp [fetch_documents_msg, hs]
  · rintro rfl
    rfl
  · rintro e rfl
    rfl
  · cases ru with
    | conn_error => simp [fetch_users_msg]
    | exc e => simp [fetch_users_msg]
    | http status p d =>
      by_cases h : status = 200 <;> simp [fetch_users_msg, h]
  · rintro p d rfl
    simp [fetch_users]
  · cases ru with
    | conn_error => intro _; rfl
    | exc e => intro _; rfl
    | http status p d =>
      by_cases h : status = 200 <;>
        simp [fetch_users_msg, fetch_users, h]
/-- Witness for `c3_amended` at a transport failure for documents and a
404 response for users. -/
theorem c3_amended_witness :
    (fetch_documents_msg (some "tok") FetchResponse.conn_error = none ↔
      ∃ p d, (FetchResponse.conn_error : FetchResponse (List Doc)) =
        FetchResponse.http 200 p d) ∧
    (∀ p d, (FetchResponse.conn_error : FetchResponse (List Doc)) =
        FetchResponse.http 200 p d →
      fetch_documents (some "tok") FetchResponse.conn_error = p) ∧
    (fetch_documents_msg (some "tok") FetchResponse.conn_error ≠ none →
      fetch_documents (some "tok") FetchResponse.conn_error = []) ∧
    (∀ s p d, (FetchResponse.conn_error : FetchResponse (List Doc)) =
        FetchResponse.http s p d → s ≠ 200 →
      fetch_documents_msg (some "tok") FetchResponse.conn_error =
        some ("Failed to fetch documents: " ++ toString s ++ " - " ++ d)) ∧
    ((FetchResponse.conn_error : FetchResponse (List Doc)) =
        FetchResponse.conn_error →
      fetch_documents_msg (some "tok") FetchResponse.conn_error =
        some "Network error: Could not connect to backend to fetch documents.") ∧
    (∀ e, (FetchResponse.conn_error : FetchResponse (List Doc)) =
        FetchResponse.exc e →
      fetch_documents_msg (some "tok") FetchResponse.conn_error =
        some ("Error fetching documents: " ++ e)) ∧
    (fetch_users_msg (some "tok") (FetchResponse.http 404 [] "Not Found") = none ↔
      ∃ p d, FetchResponse.http 404 ([] : List User) "Not Found" =
        FetchResponse.http 200 p d) ∧
    (∀ p d, FetchResponse.http 404 ([] : List User) "Not Found" =
        FetchResponse.http 200 p d →
      fetch_users (some "tok") (FetchResponse.http 404 [] "Not Found") = p) ∧
    (fetch_users_msg (some "tok") (FetchResponse.http 404 [] "Not Found") ≠ none →
      fetch_users (some "tok") (FetchResponse.http 404 [] "Not Found") = []) :=
  c3_amended "tok" FetchResponse.conn_error (FetchResponse.http 404 [] "Not Found")

/-- C7: a document is classified as summarized iff its summary field is
present and not one of the sentinels "", "None", "null"; the literal
string "null" is NOT summarized; summarized and not-summarized counts add
up to the total document count. -/
theorem c7_summarized_classification (docs : List Doc) (d : Doc) :
    (is_summarized d = true ↔
      ∃ s, d.summary = some s ∧ s ≠ "" ∧ s ≠ "None" ∧ s ≠ "null") ∧
    summarized_count docs + not_summarized_count docs = docs.length ∧
    is_summarized null_summary_doc = false := by
  refine ⟨?_, ?_, by decide⟩
  · cases h : d.summary with
    | none => simp [is_summarized, h]
    | some s =>
      simp only [is_summarized, h, Bool.and_eq_true, bne_iff_ne, ne_eq,
        Bool.not_eq_true', Bool.or_eq_false_iff, beq_eq_false_iff_ne,
        Option.some.injEq]
      aesop
  · have hle := List.countP_le_length (fun x => is_summarized x) (l := docs)
    unfold not_summarized_count summarized_count at *
    omega

/-- C8: the readiness probe returns true exactly when some attempt in the
trace observes a 200 response (stopping at the first one), swallows
connection, timeout and other errors between attempts, and returns false
once the attempts allowed by the overall timeout are exhausted; it is a
total function, so it never raises. -/
theorem c8_wait_for_backend (trace : List ProbeOutcome) :
    (wait_for_backend trace = true ↔ ProbeOutcome.resp 200 ∈ trace) ∧
    (∀ rest,
      wait_for_backend (ProbeOutcome.conn_error :: rest) =
        wait_for_backend rest ∧
      wait_for_backend (ProbeOutcome.timeout_error :: rest) =
        wait_for_backend rest ∧
      wait_for_backend (ProbeOutcome.other_error :: rest) =
        wait_for_backend rest) ∧
    wait_for_backend ([] : List ProbeOutcome) = false := by
  refine ⟨?_, fun rest => ⟨rfl, rfl, rfl⟩, rfl⟩
  induction trace with
  | nil => simp [wait_for_backend]
  | cons o rest ih =>
    cases o with
    | resp status =>
      by_cases h : status = 200
      · subst h; simp [wait_for_backend]
      · have hne : ProbeOutcome.resp 200 ≠ ProbeOutcome.resp status := by
          intro hc; injection hc with hc2; exact h hc2.symm
        simp [wait_for_backend, h, ih, List.mem_cons, hne]
    | conn_error => simp [wait_for_backend, ih, List.mem_cons]
    | timeout_error => simp [wait_for_backend, ih, List.mem_cons]
    | other_error => simp [wait_for_backend, ih, List.mem_cons]

/-- C9: both delete handlers fail closed: on a non-200 response or an
exception the session state is returned unchanged (caches, page numbers
and the confirmation flag included); on a 200 response the caches are
invalidated, the relevant page resets to 1 and the confirmation flag is
disarmed. -/
theorem c9_delete_fail_closed (s : AppState) (r : DeleteResult) :
    (∀ status detail, r = DeleteResult.http status detail → status ≠ 200 →
      delete_document_handler s r = s ∧ confirm_delete_user_handler s r = s) ∧
    (∀ e, r = DeleteResult.exc e →
      delete_document_handler s r = s ∧ confirm_delete_user_handler s r = s) ∧
    (∀ detail, r = DeleteResult.http 200 detail →
      (delete_document_handler s r).doc_cache = none ∧
      (delete_document_handler s r).unique_user_ids = none ∧
      (delete_document_handler s r).doc_page = 1 ∧
      (delete_document_handler s r).user_page = s.user_page ∧
      (confirm_delete_user_handler s r).doc_cache = none ∧
      (confirm_delete_user_handler s r).user_cache = none ∧
      (confirm_delete_user_handler s r).unique_user_ids = none ∧
      (confirm_delete_user_handler s r).sorted_users = none ∧
      (confirm_delete_user_handler s r).user_page = 1 ∧
      (confirm_delete_user_handler s r).delete_flag = false) := by
  refine ⟨?_, ?_, ?_⟩
  · rintro status detail rfl hne
    constructor <;> simp [delete_document_handler, confirm_delete_user_handler, hne]
  · rintro e rfl
    exact ⟨rfl, rfl⟩
  · rintro detail rfl
    simp [delete_document_handler, confirm_delete_user_handler]
/-- Witness for `c9_delete_fail_closed` at a concrete state and a 404
delete response. -/
theorem c9_delete_fail_closed_witness :
    (∀ status detail,
        (DeleteResult.http 404 "missing" : DeleteResult) =
          DeleteResult.http status detail → status ≠ 200 →
      delete_document_handler
          ⟨some [], some [], some [], some [], 2, 3, true⟩
          (DeleteResult.http 404 "missing") =
        ⟨some [], some [], some [], some [], 2, 3, true⟩ ∧
      confirm_delete_user_handler
          ⟨some [], some [], some [], some [], 2, 3, true⟩
          (DeleteResult.http 404 "missing") =
        ⟨some [], some [], some [], some [], 2, 3, true⟩) ∧
    (∀ e, (DeleteResult.http 404 "missing" : DeleteResult) = DeleteResult.exc e →
      delete_document_handler
          ⟨some [], some [], some [], some [], 2, 3, true⟩
          (DeleteResult.http 404 "missing") =
        ⟨some [], some [], some [], some [], 2, 3, true⟩ ∧
      confirm_delete_user_handler
          ⟨some [], some [], some [], some [], 2, 3, true⟩
          (DeleteResult.http 404 "missing") =
        ⟨some [], some [], some [], some [], 2, 3, true⟩) ∧
    (∀ detail,
        (DeleteResult.http 404 "missing" : DeleteResult) =
          DeleteResult.http 200 detail →
      (delete_document_handler
          ⟨some [], some [], some [], some [], 2, 3, true⟩
          (DeleteResult.http 404 "missing")).doc_cache = none ∧
      (delete_document_handler
          ⟨some [], some [], some [], some [], 2, 3, true⟩
          (DeleteResult.http 404 "missing")).unique_user_ids = none ∧
      (delete_document_handler
          ⟨some [], some [], some [], some [], 2, 3, true⟩
          (DeleteResult.http 404 "missing")).doc_page = 1 ∧
      (delete_document_handler
          ⟨some [], some [], some [], some [], 2, 3, true⟩
          (DeleteResult.http 404 "missing")).user_page =
        (⟨some [], some [], some [], some [], 2, 3, true⟩ : AppState).user_page ∧
      (confirm_delete_user_handler
          ⟨some [], some [], some [], some [], 2, 3, true⟩
          (DeleteResult.http 404 "missing")).doc_cache = none ∧
      (confirm_delete_user_handler
          ⟨some [], some [], some [], some [], 2, 3, true⟩
          (DeleteResult.http 404 "missing")).user_cache = none ∧
      (confirm_delete_user_handler
          ⟨some [], some [], some [], some [], 2, 3, true⟩
          (DeleteResult.http 404 "missing")).unique_user_ids = none ∧
      (confirm_delete_user_handler
          ⟨some [], some [], some [], some [], 2, 3, true⟩
          (DeleteResult.http 404 "missing")).sorted_users = none ∧
      (confirm_delete_user_handler
          ⟨some [], some [], some [], some [], 2, 3, true⟩
          (DeleteResult.http 404 "missing")).user_page = 1 ∧
      (confirm_delete_user_handler
          ⟨some [], some [], some [], some [], 2, 3, true⟩
          (DeleteResult.http 404 "missing")).delete_flag = false) :=
  c9_delete_fail_closed ⟨some [], some [], some [], some [], 2, 3, true⟩
    (DeleteResult.http 404 "missing")

/-- `is_pref` decides the list prefix relation. -/
theorem is_pref_iff (n h : List Char) : is_pref n h = true ↔ n <+: h := by
  induction n generalizing h with
  | nil => simp [is_pref]
  | cons c cs ih =>
    cases h with
    | nil => simp [is_pref]
    | cons d ds => simp [is_pref, ih, List.cons_prefix_cons]

/-- `has_sub` decides the list infix (contiguous substring) relation. -/
theorem has_sub_iff (n h : List Char) : has_sub n h = true ↔ n <:+: h := by
  induction h with
  | nil => simpa [has_sub] using is_pref_iff n []
  | cons c cs ih => simp [has_sub, is_pref_iff, ih, List.infix_cons_iff]

/-- C6: a document passes the Documents-page filter iff the search text is
absent or a case-insensitive substring of its filename, and the user-ID
filter is absent or equal to its user id; with both filters empty the
full collection is returned unchanged. -/
theorem c6_filtering (docs : List Doc) (q uid : String) (d : Doc) :
    (d ∈ filter_documents docs q uid ↔
      d ∈ docs ∧
      (q = "" ∨ q.toLower.toList <:+: d.filename.toLower.toList) ∧
      (uid = "" ∨ uid = d.user_id)) ∧
    filter_documents docs "" "" = docs := by
  constructor
  · unfold filter_documents
    by_cases hq : q = "" <;> by_cases hu : uid = "" <;>
      simp [hq, hu, List.mem_filter, py_in, has_sub_iff] <;> tauto
  · rfl

/-- Emission lemma for the Users-page detail view: whenever one step emits
a DELETE request for id `i`, the collection contains a non-admin user
with that id. -/
theorem user_step_emits (users : List User) (flags : List String)
    (a : UserAction) (i : String)
    (h : (user_step users flags a).2 = some i) :
    ∃ u, u ∈ users ∧ u.id = i ∧ u.is_admin = false := by
  cases a with
  | press_delete name =>
    cases hf : users.find? (fun u => u.username == name) with
    | none => simp [user_step, hf] at h
    | some u =>
      by_cases ha : u.is_admin = true <;> simp [user_step, hf, ha] at h
  | press_confirm name r =>
    cases hf : users.find? (fun u => u.username == name) with
    | none => simp [user_step, hf] at h
    | some u =>
      by_cases ha : u.is_admin = true
      · simp [user_step, hf, ha] at h
      · by_cases hc : u.id ∈ flags
        · have hu : u ∈ users := List.mem_of_find?_eq_some hf
          have hui : u.id = i := by
            cases r with
            | http status detail =>
              by_cases hs : status = 200 <;>
                simp [user_step, hf, ha, hc, hs] at h <;> exact h
            | exc e => simp [user_step, hf, ha, hc] at h; exact h
          exact ⟨u, hu, hui, by simpa using ha⟩
        · simp [user_step, hf, ha, hc] at h
  | press_cancel name =>
    cases hf : users.find? (fun u => u.username == name) with
    | none => simp [user_step, hf] at h
    | some u =>
      by_cases ha : u.is_admin = true
      · simp [user_step, hf, ha] at h
      · by_cases hc : u.id ∈ flags <;>
          simp [user_step, hf, ha, hc] at h

/-- C10: in every sequence of Users-page interactions, every emitted
`DELETE /admin/users/{id}` request targets a user of the collection whose
`is_admin` flag is false: the delete controls are rendered only for
non-admin users, so an admin is never deleted. -/
theorem c10_no_admin_delete (users : List User) (flags : List String)
    (acts : List UserAction) (i : String)
    (hi : i ∈ user_run users flags acts) :
    ∃ u, u ∈ users ∧ u.id = i ∧ u.is_admin = false := by
  revert hi
  induction acts generalizing flags with
  | nil => intro hi; simp [user_run] at hi
  | cons a rest ih =>
    intro hi
    simp only [user_run] at hi
    rcases hstep : user_step users flags a with ⟨flags2, em⟩
    rw [hstep] at hi
    cases em with
    | none => exact ih flags2 hi
    | some j =>
      rcases List.mem_cons.mp hi with rfl | hi2
      · exact user_step_emits users flags a i (by rw [hstep])
      · exact ih flags2 hi2
/-- Witness for `c10_no_admin_delete`: arming and confirming deletion of
the non-admin user "alice" emits a request for id "1", and the collection
indeed holds a non-admin user with id "1". -/
theorem c10_no_admin_delete_witness :
    ("1" : String) ∈
      user_run
        [{ id := "9", username := "root", email := "root@example.com",
           is_admin := true, is_active := true,
           created_at := "2023-01-01T00:00:00" }, sample_user]
        []
        [UserAction.press_delete "alice",
         UserAction.press_confirm "alice" (DeleteResult.http 200 "ok")] ∧
    ∃ u, u ∈
        [{ id := "9", username := "root", email := "root@example.com",
           is_admin := true, is_active := true,
           created_at := "2023-01-01T00:00:00" }, sample_user] ∧
      u.id = "1" ∧ u.is_admin = false :=
  ⟨by decide,
    c10_no_admin_delete
      [{ id := "9", username := "root", email := "root@example.com",
         is_admin := true, is_active := true,
         created_at := "2023-01-01T00:00:00" }, sample_user]
      []
      [UserAction.press_delete "alice",
       UserAction.press_confirm "alice" (DeleteResult.http 200 "ok")]
      "1" (by decide)⟩

/-! ### Properties of the Python string order -/

/-- Unfolding of `chars_le` on two cons cells. -/
theorem chars_le_cons_iff (x y : Char) (xs ys : List Char) :
    chars_le (x :: xs) (y :: ys) = true ↔
      (x.toNat < y.toNat ∨ (x.toNat = y.toNat ∧ chars_le xs ys = true)) := by
  show (if x.toNat < y.toNat then true
    else if y.toNat < x.toNat then false else chars_le xs ys) = true ↔ _
  by_cases h1 : x.toNat < y.toNat
  · simp [h1]
  · by_cases h2 : y.toNat < x.toNat
    · simp [h1, h2]
      rintro he
      omega
    · have he : x.toNat = y.toNat := by omega
      simp [h1, h2, he]

/-- Reflexivity of `chars_le`. -/
theorem chars_le_refl (a : List Char) : chars_le a a = true := by
  induction a with
  | nil => rfl
  | cons c cs ih => simp [chars_le, ih]

/-- Totality of `chars_le`. -/
theorem chars_le_total (a b : List Char) :
    chars_le a b = true ∨ chars_le b a = true := by
  induction a generalizing b with
  | nil => exact Or.inl rfl
  | cons c cs ih =>
    cases b with
    | nil => exact Or.inr rfl
    | cons d ds =>
      rcases Nat.lt_trichotomy c.toNat d.toNat with h | h | h
      · exact Or.inl ((chars_le_cons_iff c d cs ds).mpr (Or.inl h))
      · rcases ih ds with h2 | h2
        · exact Or.inl ((chars_le_cons_iff c d cs ds).mpr (Or.inr ⟨h, h2⟩))
        · exact Or.inr ((chars_le_cons_iff d c ds cs).mpr (Or.inr ⟨h.symm, h2⟩))
      · exact Or.inr ((chars_le_cons_iff d c ds cs).mpr (Or.inl h))

/-- Transitivity of `chars_le`. -/
theorem chars_le_trans :
    ∀ (a b c : List Char), chars_le a b = true → chars_le b c = true →
      chars_le a c = true
  | [], _, _, _, _ => rfl
  | x :: xs, [], _, h1, _ => by simp [chars_le] at h1
  | _ :: _, _ :: _, [], _, h2 => by simp [chars_le] at h2
  | x :: xs, y :: ys, z :: zs, h1, h2 => by
    rw [chars_le_cons_iff] at h1 h2 ⊢
    rcases h1 with h1 | ⟨h1e, h1t⟩ <;> rcases h2 with h2 | ⟨h2e, h2t⟩
    · exact Or.inl (by omega)
    · exact Or.inl (by omega)
    · exact Or.inl (by omega)
    · exact Or.inr ⟨by omega, chars_le_trans xs ys zs h1t h2t⟩

/-- Antisymmetry of `chars_le`. -/
theorem chars_le_antisymm :
    ∀ (a b : List Char), chars_le a b = true → chars_le b a = true → a = b
  | [], [], _, _ => rfl
  | [], _ :: _, _, h2 => by simp [chars_le] at h2
  | _ :: _, [], h1, _ => by simp [chars_le] at h1
  | x :: xs, y :: ys, h1, h2 => by
    rw [chars_le_cons_iff] at h1 h2
    rcases h1 with h1 | ⟨h1e, h1t⟩
    · rcases h2 with h2 | ⟨h2e, _⟩
      · exact absurd h1 (by omega)
      · exact absurd h1 (by omega)
    · rcases h2 with h2 | ⟨h2e, h2t⟩
      · exact absurd h2 (by omega)
      · have hc : x = y := Char.ext (UInt32.ext h1e)
        have ht : xs = ys := chars_le_antisymm xs ys h1t h2t
        rw [hc, ht]

/-- Two strings with equal character data are equal. -/
theorem string_eq_of_data_eq (a b : String) (h : a.data = b.data) : a = b := by
  cases a; cases b; simp_all

/-- Antisymmetry of `py_str_le`. -/
theorem py_str_le_antisymm (a b : String) (h1 : py_str_le a b = true)
    (h2 : py_str_le b a = true) : a = b :=
  string_eq_of_data_eq a b (chars_le_antisymm a.toList b.toList h1 h2)

/-! ### Stability of insertion sort under key-respecting filters -/

/-- Filtering past an `orderedInsert` of an element the filter rejects. -/
theorem filter_orderedInsert_neg {α : Type} {r : α → α → Prop} [DecidableRel r]
    (p : α → Bool) (x : α) (l : List α) (hx : p x = false) :
    (List.orderedInsert r x l).filter p = l.filter p := by
  induction l with
  | nil => simp [hx]
  | cons y ys ih =>
    by_cases hr : r x y
    · simp [hr, hx]
    · by_cases hy : p y = true <;>
        simp [hr, hy, ih, List.filter_cons]

/-- Filtering past an `orderedInsert` of an accepted element, when every
element the insertion skips over is rejected by the filter. -/
theorem filter_orderedInsert_pos {α : Type} {r : α → α → Prop} [DecidableRel r]
    (p : α → Bool) (x : α) (l : List α) (hx : p x = true)
    (hskip : ∀ y, ¬r x y → p y = false) :
    (List.orderedInsert r x l).filter p = x :: l.filter p := by
  induction l with
  | nil => simp [hx]
  | cons y ys ih =>
    by_cases hr : r x y
    · simp [hr, hx]
    · have hy : p y = false := hskip y hr
      simp [hr, hy, ih, List.filter_cons]

/-- Insertion sort is stable for any filter that is downward closed for
the sort relation in the sense of `h`: sorting does not change the
subsequence of elements accepted by the filter. -/
theorem filter_insertionSort {α : Type} {r : α → α → Prop} [DecidableRel r]
    (p : α → Bool) (l : List α)
    (h : ∀ x y, p x = true → ¬r x y → p y = false) :
    (List.insertionSort r l).filter p = l.filter p := by
  induction l with
  | nil => rfl
  | cons x xs ih =>
    by_cases hx : p x = true
    · rw [List.insertionSort,
        filter_orderedInsert_pos p x _ hx (fun y hy => h x y hx hy), ih,
        List.filter_cons_of_pos hx]
    · have hx2 : p x = false := by simpa using hx
      rw [List.insertionSort, filter_orderedInsert_neg p x _ hx2, ih,
        List.filter_cons_of_neg (by simp [hx2])]

/-! ### Properties of the embedded Python sort -/

/-- The sort returns a permutation of its input. -/
theorem py_sorted_by_perm {α : Type} (key : α → String) (rev : Bool)
    (l : List α) : List.Perm (py_sorted_by key rev l) l := by
  cases rev
  · exact List.perm_insertionSort _ l
  · exact List.perm_insertionSort _ l

/-- Ascending output is sorted by the non-strict key order. -/
theorem py_sorted_by_sorted_asc {α : Type} (key : α → String) (l : List α) :
    (py_sorted_by key false l).Sorted
      (fun a b => py_str_le (key a) (key b) = true) := by
  haveI : IsTotal α (fun a b => py_str_le (key a) (key b) = true) :=
    ⟨fun a b => chars_le_total _ _⟩
  haveI : IsTrans α (fun a b => py_str_le (key a) (key b) = true) :=
    ⟨fun _ _ _ h1 h2 => chars_le_trans _ _ _ h1 h2⟩
  exact List.sorted_insertionSort _ l

/-- Descending output is sorted by the reversed non-strict key order. -/
theorem py_sorted_by_sorted_desc {α : Type} (key : α → String) (l : List α) :
    (py_sorted_by key true l).Sorted
      (fun a b => py_str_le (key b) (key a) = true) := by
  haveI : IsTotal α (fun a b => py_str_le (key b) (key a) = true) :=
    ⟨fun a b => (chars_le_total _ _).symm⟩
  haveI : IsTrans α (fun a b => py_str_le (key b) (key a) = true) :=
    ⟨fun _ _ _ h1 h2 => chars_le_trans _ _ _ h2 h1⟩
  exact List.sorted_insertionSort _ l

/-- The sort is stable: for every key value the subsequence of elements
carrying that key is unchanged. -/
theorem py_sorted_by_stable {α : Type} (key : α → String) (rev : Bool)
    (l : List α) (v : String) :
    (py_sorted_by key rev l).filter (fun a => key a == v) =
      l.filter (fun a => key a == v) := by
  cases rev
  · rw [show py_sorted_by key false l =
        l.insertionSort (fun a b => py_str_le (key a) (key b) = true) from rfl]
    apply filter_insertionSort
    intro x y hx hr
    have hxv : key x = v := by simpa using hx
    by_contra hy
    have hyv : key y = v := by
      have : (key y == v) = true := by
        cases hb : (key y == v) with
        | false => exact absurd hb hy
        | true => rfl
      simpa using this
    exact hr (by rw [hxv, ← hyv]; exact chars_le_refl _)
  · rw [show py_sorted_by key true l =
        l.insertionSort (fun a b => py_str_le (key b) (key a) = true) from rfl]
    apply filter_insertionSort
    intro x y hx hr
    have hxv : key x = v := by simpa using hx
    by_contra hy
    have hyv : key y = v := by
      have : (key y == v) = true := by
        cases hb : (key y == v) with
        | false => exact absurd hb hy
        | true => rfl
      simpa using this
    exact hr (by rw [hxv, ← hyv]; exact chars_le_refl _)

/-- With pairwise-distinct keys, the descending sort is the exact reverse
of the ascending sort. -/
theorem py_sorted_by_reverse_of_distinct {α : Type} (key : α → String)
    (l : List α) (hl : l.Pairwise (fun a b => key a ≠ key b)) :
    py_sorted_by key true l = (py_sorted_by key false l).reverse := by
  have hperm : List.Perm (py_sorted_by key true l)
      ((py_sorted_by key false l).reverse) :=
    (py_sorted_by_perm key true l).trans
      ((py_sorted_by_perm key false l).symm.trans
        (List.reverse_perm (py_sorted_by key false l)).symm)
  have hsym : Symmetric (fun a b : α => key a ≠ key b) :=
    fun _ _ hab => fun he => hab he.symm
  have hd1 : (py_sorted_by key true l).Pairwise (fun a b => key a ≠ key b) :=
    ((py_sorted_by_perm key true l).pairwise_iff (fun hab => hsym hab)).mpr hl
  have hd_asc : (py_sorted_by key false l).Pairwise (fun a b => key a ≠ key b) :=
    ((py_sorted_by_perm key false l).pairwise_iff (fun hab => hsym hab)).mpr hl
  have hd2 : ((py_sorted_by key false l).reverse).Pairwise
      (fun a b => key a ≠ key b) :=
    List.pairwise_reverse.mpr (hd_asc.imp (fun hab => hsym hab))
  have hs1 : (py_sorted_by key true l).Pairwise
      (fun a b => py_str_le (key b) (key a) = true) :=
    py_sorted_by_sorted_desc key l
  have hs2 : ((py_sorted_by key false l).reverse).Pairwise
      (fun a b => py_str_le (key b) (key a) = true) :=
    List.pairwise_reverse.mpr (py_sorted_by_sorted_asc key l)
  haveI : IsAntisymm α
      (fun a b => py_str_le (key b) (key a) = true ∧ key a ≠ key b) :=
    ⟨fun a b h1 h2 =>
      absurd (py_str_le_antisymm _ _ h2.1 h1.1) h1.2⟩
  exact List.eq_of_perm_of_sorted hperm (hs1.and hd1) (hs2.and hd2)

/-- C5: both sort call sites sort by the record's comparison field
(`upload_time` for documents, `created_at` for users) in the code-point
lexicographic string order, returning a permutation of the input;
descending sorting of a collection with pairwise-distinct keys is the
exact reverse of ascending sorting; and for equal keys the sort is
stable, preserving the input order of the records with any given key. -/
theorem c5_sorting (docs : List Doc) (users : List User) (v : String) :
    List.Perm (sort_documents "asc" docs) docs ∧
    List.Perm (sort_documents "desc" docs) docs ∧
    (sort_documents "asc" docs).Sorted
      (fun a b => py_str_le a.upload_time b.upload_time = true) ∧
    (sort_documents "desc" docs).Sorted
      (fun a b => py_str_le b.upload_time a.upload_time = true) ∧
    (docs.Pairwise (fun a b => a.upload_time ≠ b.upload_time) →
      sort_documents "desc" docs = (sort_documents "asc" docs).reverse) ∧
    (users.Pairwise (fun a b => a.created_at ≠ b.created_at) →
      sort_users "desc" users = (sort_users "asc" users).reverse) ∧
    (∀ ord, (sort_documents ord docs).filter (fun d => d.upload_time == v) =
      docs.filter (fun d => d.upload_time == v)) ∧
    (∀ ord, (sort_users ord users).filter (fun u => u.created_at == v) =
      users.filter (fun u => u.created_at == v)) := by
  have hda : sort_documents "asc" docs =
      py_sorted_by (fun x => x.upload_time) false docs := rfl
  have hdd : sort_documents "desc" docs =
      py_sorted_by (fun x => x.upload_time) true docs := rfl
  have hua : sort_users "asc" users =
      py_sorted_by (fun x => x.created_at) false users := rfl
  have hud : sort_users "desc" users =
      py_sorted_by (fun x => x.created_at) true users := rfl
  refine ⟨?_, ?_, ?_, ?_, ?_, ?_, ?_, ?_⟩
  · rw [hda]; exact py_sorted_by_perm _ false docs
  · rw [hdd]; exact py_sorted_by_perm _ true docs
  · rw [hda]; exact py_sorted_by_sorted_asc _ docs
  · rw [hdd]; exact py_sorted_by_sorted_desc _ docs
  · intro hdist
    rw [hdd, hda]
    exact py_sorted_by_reverse_of_distinct _ docs hdist
  · intro hdist
    rw [hud, hua]
    exact py_sorted_by_reverse_of_distinct _ users hdist
  · intro ord
    unfold sort_documents
    exact py_sorted_by_stable _ _ docs v
  · intro ord
    unfold sort_users
    exact py_sorted_by_stable _ _ users v
/-- Witness for `c5_sorting` at a concrete two-document, two-user
collection with distinct keys. -/
theorem c5_sorting_witness :
    List.Perm (sort_documents "asc" (sample_docs 2)) (sample_docs 2) ∧
    List.Perm (sort_documents "desc" (sample_docs 2)) (sample_docs 2) ∧
    (sort_documents "asc" (sample_docs 2)).Sorted
      (fun a b => py_str_le a.upload_time b.upload_time = true) ∧
    (sort_documents "desc" (sample_docs 2)).Sorted
      (fun a b => py_str_le b.upload_time a.upload_time = true) ∧
    ((sample_docs 2).Pairwise (fun a b => a.upload_time ≠ b.upload_time) →
      sort_documents "desc" (sample_docs 2) =
        (sort_documents "asc" (sample_docs 2)).reverse) ∧
    (([sample_user] : List User).Pairwise
        (fun a b => a.created_at ≠ b.created_at) →
      sort_users "desc" [sample_user] =
        (sort_users "asc" [sample_user]).reverse) ∧
    (∀ ord, (sort_documents ord (sample_docs 2)).filter
        (fun d => d.upload_time == "2024-01-01T00:00:0") =
      (sample_docs 2).filter
        (fun d => d.upload_time == "2024-01-01T00:00:0")) ∧
    (∀ ord, (sort_users ord [sample_user]).filter
        (fun u => u.created_at == "2024-01-01T00:00:0") =
      ([sample_user] : List User).filter
        (fun u => u.created_at == "2024-01-01T00:00:0")) :=
  c5_sorting (sample_docs 2) [sample_user] "2024-01-01T00:00:0"

end SmartDoc
